import Mathlib

/-!
# Verification of the `use-stored-state` synchronization core

This development is a shallow embedding of the two-hook synchronization
engine of the `use-stored-state` repository:

* `useKeyStore` (single-source store adapter, `src/useKeyStore.ts`): reads
  one external source (URL query parameter, session storage, or local
  storage), parses the raw value, writes serialized values back, and keeps
  a process-wide registry of active consumers per query key so that the
  query parameter is removed from the URL exactly when its last consumer
  unmounts.
* `useStoredState` (composite layer, `src/useStoredState.ts`): validates
  its options, instantiates three adapters, resolves an initial value by
  hydration precedence (query, then session storage, then local storage,
  then the default value), gates both hydration candidates and setter
  candidates through a validation strategy, and fans every accepted update
  out to all configured stores.

JavaScript dynamic values are modelled by `JsVal`; JavaScript numbers are
modelled by `JsNumber`, a partial model covering `NaN` and the integers
(the only number values the theorems evaluate).  The browser environment
(URL query string, the two storages, presence of `window`) is modelled by
`Env`; exception propagation, where a claim is about it, is modelled with
`Except`.
-/

/-- Partial model of a JavaScript number: `NaN` or an integer.  The
theorems below evaluate numbers only at `NaN` and at small integers, which
this model represents exactly; other JavaScript numbers (non-integral
doubles, infinities, negative zero) are outside its scope. -/
inductive JsNumber where
  | nan : JsNumber
  | fin (n : Int) : JsNumber
deriving DecidableEq, Repr

/-- Model of `Number.isNaN` on the number model. -/
def JsNumber.isNaN : JsNumber → Bool
  | .nan => true
  | .fin _ => false

/-- A JavaScript runtime value, as classified by the `typeof` dispatch in
`parsePrimitiveState`: a boolean, a number, a string, or any other shape
(object, array, `undefined`, ...), which that dispatch never inspects
further. -/
inductive JsVal where
  | jsBool (b : Bool) : JsVal
  | jsNum (n : JsNumber) : JsVal
  | jsStr (s : String) : JsVal
  | jsOther : JsVal
deriving DecidableEq, Repr

/-- Drop leading JavaScript whitespace (modelled by `Char.isWhitespace`). -/
def dropWs (cs : List Char) : List Char := cs.dropWhile Char.isWhitespace

/-- Trim whitespace from both ends of a character list, as `Number(...)`
does to its string argument. -/
def trimWs (cs : List Char) : List Char := (dropWs (dropWs cs).reverse).reverse

/-- Read a non-empty list of decimal digits as a natural number; `none` if
the list is empty or contains a non-digit. -/
def parseDigits (cs : List Char) : Option Nat :=
  match cs with
  | [] => none
  | _ =>
    cs.foldl
      (fun acc c =>
        acc.bind fun n => if c.isDigit then some (10 * n + (c.toNat - 48)) else none)
      (some 0)

/-- Model of JavaScript `Number(raw)` on strings, restricted to the values
`JsNumber` represents: the trimmed-empty string converts to `0`, an
optionally signed decimal integer literal converts to that integer, and
every other string (including `"NaN"`, which JavaScript also converts to
`NaN`) converts to `NaN`.  Strings denoting non-integer numbers (decimal
points, exponents, hex, `"Infinity"`) are approximated by `NaN`; no
theorem below evaluates this function at such a string. -/
def jsToNumber (s : String) : JsNumber :=
  match trimWs s.data with
  | [] => .fin 0
  | '-' :: rest =>
    match parseDigits rest with
    | some n => .fin (-(n : Int))
    | none => .nan
  | '+' :: rest =>
    match parseDigits rest with
    | some n => .fin (n : Int)
    | none => .nan
  | cs =>
    match parseDigits cs with
    | some n => .fin (n : Int)
    | none => .nan

/-- JavaScript `String(...)` on the number model: `NaN` prints as
`"NaN"`, an integer as its decimal representation. -/
def jsNumberToString : JsNumber → String
  | .nan => "NaN"
  | .fin n => toString n

/-- JavaScript `String(value)`, the default serializer of
`useStoredState` (`serialize ?? ((value) => String(value))`).  For the
opaque `jsOther` shape the exact output of `String(...)` depends on the
value; the model fixes one representative string, which no theorem
depends on. -/
def jsValToString : JsVal → String
  | .jsBool b => cond b "true" "false"
  | .jsNum n => jsNumberToString n
  | .jsStr s => s
  | .jsOther => "[object Object]"

/-- Source function `parsePrimitiveState` (`src/useStoredState.ts`): parse a raw string
according to the runtime type of the default value; `none` models the
`null` return for an unparseable value. -/
def parsePrimitiveState (rawValue : String) (defaultValue : JsVal) : Option JsVal :=
  match defaultValue with
  | .jsBool _ =>
    if rawValue = "true" then some (.jsBool true)
    else if rawValue = "false" then some (.jsBool false)
    else none
  | .jsNum _ =>
    let parsedNumber := jsToNumber rawValue
    if parsedNumber.isNaN then none
    else some (.jsNum parsedNumber)
  | .jsStr _ => some (.jsStr rawValue)
  | .jsOther => none

/-- The default codec exactly as the specification words it: boolean
defaults accept only `"true"`/`"false"`, number defaults go through
`Number(raw)` with a `NaN` result unparseable, string defaults parse by
identity, and any other shape is always unparseable. -/
def defaultCodecSpec (raw : String) (defaultValue : JsVal) : Option JsVal :=
  match defaultValue with
  | .jsBool _ =>
    if raw = "true" then some (.jsBool true)
    else if raw = "false" then some (.jsBool false)
    else none
  | .jsNum _ =>
    if (jsToNumber raw).isNaN then none else some (.jsNum (jsToNumber raw))
  | .jsStr _ => some (.jsStr raw)
  | .jsOther => none

/-- One of the three external sources a `useKeyStore` adapter can bind to
(the `source` field of `UseKeyStoreOptions`). -/
inductive StoreSource where
  | query : StoreSource
  | sessionStorage : StoreSource
  | localStorage : StoreSource
deriving DecidableEq, Repr

/-- A string-keyed store (the URL query string, `window.sessionStorage`,
or `window.localStorage`) as an association list of key/value pairs. -/
abbrev KVStore : Type := List (String × String)

/-- Read a key: the value of its first entry, `none` when absent
(`URLSearchParams.get` / `Storage.getItem`). -/
def getParam : KVStore → String → Option String
  | [], _ => none
  | (k', v) :: rest, k => if k' = k then some v else getParam rest k

/-- Remove every entry with the given key (`URLSearchParams.delete` /
`Storage.removeItem`). -/
def deleteParam (ps : KVStore) (k : String) : KVStore :=
  ps.filter (fun p => p.1 ≠ k)

/-- Set a key to a value: replace the first entry with that key (dropping
later duplicates, as `URLSearchParams.set` does) or append a new entry
when the key is absent (`Storage.setItem` behaves identically on
duplicate-free stores). -/
def setParam : KVStore → String → String → KVStore
  | [], k, v => [(k, v)]
  | (k', v') :: rest, k, v =>
    if k' = k then (k, v) :: deleteParam rest k
    else (k', v') :: setParam rest k v

/-- The browser-visible environment: the current URL's query parameters,
the two storages, and whether a `window` object exists at all
(`hasWindow = false` models a pre-render/server context in which
`typeof window === "undefined"`). -/
structure Env where
  query : KVStore
  session : KVStore
  locals : KVStore
  hasWindow : Bool
deriving DecidableEq, Repr

/-- The store an `Env` holds for a given source kind. -/
def Env.store (env : Env) : StoreSource → KVStore
  | .query => env.query
  | .sessionStorage => env.session
  | .localStorage => env.locals

/-- Source function `getStorageValue` (`src/useKeyStore.ts`): the adapter's read.  A
`none` key or a missing `window` yields `null` before any store is
consulted; otherwise the raw value is looked up in the store selected by
`source` and, when present, handed to the parse function (whose own
`none` result is returned as-is). -/
def getStorageValue (source : StoreSource) (key : Option String)
    (parse : String → Option JsVal) (env : Env) : Option JsVal :=
  match key with
  | none => none
  | some k =>
    if env.hasWindow = false then none
    else
      match getParam (env.store source) k with
      | none => none
      | some raw => parse raw

/-- Variant of `getStorageValue` with JavaScript exception propagation made
explicit: the parse function may throw (`Except.error`), and — exactly as
in the source, which wraps the `parseValue(...)` call in no
`try`/`catch` — a thrown exception propagates to the caller. -/
def getStorageValueE (source : StoreSource) (key : Option String)
    (parse : String → Except Unit (Option JsVal)) (env : Env) :
    Except Unit (Option JsVal) :=
  match key with
  | none => .ok none
  | some k =>
    if env.hasWindow = false then .ok none
    else
      match getParam (env.store source) k with
      | none => .ok none
      | some raw => parse raw

/-- Source function `setStorageValue` (`src/useKeyStore.ts`): the adapter's write.  A
`none` key or a missing `window` is a no-op; otherwise the serialized
value is written under the key into the store selected by `source` (for
the query source via `url.searchParams.set` followed by
`history.replaceState`). -/
def setStorageValue (source : StoreSource) (key : Option String)
    (serialize : JsVal → String) (value : JsVal) (env : Env) : Env :=
  match key with
  | none => env
  | some k =>
    if env.hasWindow = false then env
    else
      let stringValue := serialize value
      match source with
      | .query => { env with query := setParam env.query k stringValue }
      | .localStorage => { env with locals := setParam env.locals k stringValue }
      | .sessionStorage => { env with session := setParam env.session k stringValue }

/-- The process-wide `activeQueryKeyInstances` map (`src/useKeyStore.ts`):
query key → set of activation identifiers (JavaScript `Symbol`s, modelled
by naturals), as an association list. -/
abbrev Registry : Type := List (String × List Nat)

/-- Model of `Map.get` on the registry. -/
def getEntry : Registry → String → Option (List Nat)
  | [], _ => none
  | (k', s) :: rest, k => if k' = k then some s else getEntry rest k

/-- Model of `Map.set` on the registry: replace the first entry for the key, or
append one. -/
def setEntry : Registry → String → List Nat → Registry
  | [], k, s => [(k, s)]
  | (k', s') :: rest, k, s =>
    if k' = k then (k, s) :: rest
    else (k', s') :: setEntry rest k s

/-- Model of `Map.delete` on the registry. -/
def removeEntry (reg : Registry) (k : String) : Registry :=
  reg.filter (fun p => p.1 ≠ k)

/-- Model of `Set.add` on an instance set (no duplicate is introduced). -/
def insertId (s : List Nat) (i : Nat) : List Nat :=
  if i ∈ s then s else i :: s

/-- Model of `Set.delete` on an instance set: drop the identifier (a no-op when it
is absent, exactly as `Set.delete` is). -/
def removeId (s : List Nat) (i : Nat) : List Nat :=
  s.filter (fun x => x ≠ i)

/-- The mount half of the query-lifecycle effect (`src/useKeyStore.ts`,
`useEffect` body): register the activation's identifier in the shared
per-key set.  The guard (`source !== "query" || key === null ||
typeof window === "undefined"`) is applied by the caller of this
function, `queryEffectSetup`. -/
def registerInstance (reg : Registry) (k : String) (i : Nat) : Registry :=
  let instances := (getEntry reg k).getD []
  setEntry reg k (insertId instances i)

/-- The cleanup half of the query-lifecycle effect (`src/useKeyStore.ts`,
the function returned by the `useEffect` body): look up the key's
instance set (a missing set is a no-op), delete this activation's
identifier, and — only when the set has become empty — delete the
registry entry and remove the query parameter from the URL via
`history.replaceState`. -/
def cleanupInstance (reg : Registry) (k : String) (i : Nat) (env : Env) :
    Registry × Env :=
  match getEntry reg k with
  | none => (reg, env)
  | some activeInstances =>
    let remaining := removeId activeInstances i
    if 0 < remaining.length then (setEntry reg k remaining, env)
    else (removeEntry reg k, { env with query := deleteParam env.query k })

/-- The mount effect with its guard: a non-query source, a `none` key, or
a missing `window` registers nothing. -/
def queryEffectSetup (source : StoreSource) (key : Option String)
    (hasWindow : Bool) (i : Nat) (reg : Registry) : Registry :=
  match source, key, hasWindow with
  | .query, some k, true => registerInstance reg k i
  | _, _, _ => reg

/-- The cleanup effect with the same guard. -/
def queryEffectCleanup (source : StoreSource) (key : Option String)
    (hasWindow : Bool) (i : Nat) (reg : Registry) (env : Env) :
    Registry × Env :=
  match source, key, hasWindow with
  | .query, some k, true => cleanupInstance reg k i env
  | _, _, _ => (reg, env)

/-- The options of `useStoredState` (`src/types.ts`,
`UseStoredStateOptions`).  Mutual-exclusion and pairing constraints are
enforced at runtime by `validateUseStoredStateOptions`, so the structure
itself leaves every field optional (`defaultValue` excepted). -/
structure StoredStateOptions where
  queryKey : Option String
  sessionStorageKey : Option String
  localStorageKey : Option String
  defaultValue : JsVal
  validValues : Option (List JsVal)
  validate : Option (JsVal → Bool)
  parse : Option (String → Option JsVal)
  serialize : Option (JsVal → String)

/-- Source function `validateUseStoredStateOptions` (`src/useStoredState.ts`): the
option-shape checks, in source order.  The `typeof`-based checks (a key
that is not a string, a non-function `validate`, ...) concern values the
typed embedding cannot represent and are omitted.  `Except.error` models
the thrown `Error` with its message. -/
def validateUseStoredStateOptions (o : StoredStateOptions) : Except String Unit :=
  let hasQueryKey := o.queryKey.isSome
  let hasSessionStorageKey := o.sessionStorageKey.isSome
  let hasLocalStorageKey := o.localStorageKey.isSome
  if !hasQueryKey && !hasSessionStorageKey && !hasLocalStorageKey then
    .error "useStoredState requires at least one of queryKey, sessionStorageKey, or localStorageKey"
  else if hasSessionStorageKey && hasLocalStorageKey then
    .error "useStoredState options must include only one of sessionStorageKey or localStorageKey"
  else if o.validValues.isSome && o.validate.isSome then
    .error "Provide only one of validValues or validate"
  else if (o.parse.isSome) != (o.serialize.isSome) then
    .error "parse and serialize must be provided together"
  else
    .ok ()

/-- Source function `isValid` (`src/useStoredState.ts`): the active validation strategy —
membership in `validValues` when given, else the `validate` predicate
when given, else everything is valid. -/
def isValid (o : StoredStateOptions) (value : JsVal) : Bool :=
  match o.validValues with
  | some vs => vs.contains value
  | none =>
    match o.validate with
    | some f => f value
    | none => true

/-- Source binding `parseValue` (`src/useStoredState.ts`): the caller-supplied `parse`,
or the primitive default codec driven by `defaultValue`. -/
def parseValue (o : StoredStateOptions) : String → Option JsVal :=
  match o.parse with
  | some p => p
  | none => fun rawValue => parsePrimitiveState rawValue o.defaultValue

/-- Source binding `serializeValue` (`src/useStoredState.ts`): the caller-supplied
`serialize`, or `String(value)`. -/
def serializeValue (o : StoredStateOptions) : JsVal → String :=
  match o.serialize with
  | some s => s
  | none => jsValToString

/-- The key `useStoredState` hands the adapter for a given source kind
(`queryKey ?? null`, etc.). -/
def StoredStateOptions.keyFor (o : StoredStateOptions) : StoreSource → Option String
  | .query => o.queryKey
  | .sessionStorage => o.sessionStorageKey
  | .localStorage => o.localStorageKey

/-- The initial read one of the three `useKeyStore` instances performs for
the composite hook: `getStorageValue` with the composite's effective
parse function. -/
def readState (o : StoredStateOptions) (env : Env) (source : StoreSource) : Option JsVal :=
  getStorageValue source (o.keyFor source) (parseValue o) env

/-- The `validatedQueryState` / `validatedSessionStorageState` /
`validatedLocalStorageState` computation (`src/useStoredState.ts`): a
non-null adapter read that passes `isValid`, else `null`.  The source
guards the `isValid` call behind `!== null`, so the validator is only
ever applied in the `some` branch. -/
def validatedState (o : StoredStateOptions) (read : Option JsVal) : Option JsVal :=
  match read with
  | none => none
  | some v => if isValid o v then some v else none

/-- Source binding `initialState` (`src/useStoredState.ts`): the hydrated value —
validated query read, else validated session-storage read, else validated
local-storage read, else `defaultValue` (the `??` chain). -/
def initialState (o : StoredStateOptions) (env : Env) : JsVal :=
  ((validatedState o (readState o env .query)).orElse fun _ =>
    (validatedState o (readState o env .sessionStorage)).orElse fun _ =>
      validatedState o (readState o env .localStorage)).getD o.defaultValue

/-- Generalization of `initialState` over the gate applied to an adapter read:
the gate receives the whole (possibly null) read, mirroring how the
source's `queryState !== null && isValid(queryState)` would behave for an
arbitrary gate in place of the short-circuited conjunction.  Used to
state that hydration never consults the validator at a null read. -/
def initialStateGen (o : StoredStateOptions) (env : Env)
    (gate : Option JsVal → Bool) : JsVal :=
  let validated : Option JsVal → Option JsVal := fun read =>
    match read with
    | none => none
    | some v => if gate (some v) then some v else none
  ((validated (readState o env .query)).orElse fun _ =>
    (validated (readState o env .sessionStorage)).orElse fun _ =>
      validated (readState o env .localStorage)).getD o.defaultValue

/-- The hydration precedence exactly as the specification words it: the
query adapter's read if non-null and valid, otherwise the
session-storage read under the same condition, otherwise the
local-storage read under the same condition, otherwise `defaultValue`. -/
def hydrationSpec (o : StoredStateOptions) (env : Env) : JsVal :=
  match readState o env .query with
  | some q =>
    if isValid o q then q
    else
      match readState o env .sessionStorage with
      | some s =>
        if isValid o s then s
        else
          match readState o env .localStorage with
          | some l => if isValid o l then l else o.defaultValue
          | none => o.defaultValue
      | none =>
        match readState o env .localStorage with
        | some l => if isValid o l then l else o.defaultValue
        | none => o.defaultValue
  | none =>
    match readState o env .sessionStorage with
    | some s =>
      if isValid o s then s
      else
        match readState o env .localStorage with
        | some l => if isValid o l then l else o.defaultValue
        | none => o.defaultValue
    | none =>
      match readState o env .localStorage with
      | some l => if isValid o l then l else o.defaultValue
      | none => o.defaultValue

/-- Source function `syncAllStores` (`src/useStoredState.ts`): write the value through
all three adapters, in source order (query, then session storage, then
local storage); adapters whose key is `null` are no-ops. -/
def syncAllStores (o : StoredStateOptions) (value : JsVal) (env : Env) : Env :=
  setStorageValue .localStorage o.localStorageKey (serializeValue o) value
    (setStorageValue .sessionStorage o.sessionStorageKey (serializeValue o) value
      (setStorageValue .query o.queryKey (serializeValue o) value env))

/-- The composite hook's observable state: the runtime value and the
external environment. -/
structure CompositeState where
  value : JsVal
  env : Env
deriving DecidableEq

/-- Source function `setState` (`src/useStoredState.ts`) together with the
`useEffect(() => syncAllStores(state))` that follows an accepted update:
an invalid candidate leaves the runtime value and every store unchanged;
a valid candidate becomes the runtime value and is fanned out to every
configured store. -/
def setStateStep (o : StoredStateOptions) (candidate : JsVal)
    (s : CompositeState) : CompositeState :=
  if isValid o candidate then
    { value := candidate, env := syncAllStores o candidate s.env }
  else s

/-- An observable event during one activation of `useStoredState`:
completion of the option-shape validation, a read of an external store, a
successful validation of `defaultValue`, or a write to an external
store. -/
inductive HookEvent where
  | optionsValidated : HookEvent
  | storeRead (source : StoreSource) : HookEvent
  | defaultValidated : HookEvent
  | storeWrite (source : StoreSource) : HookEvent
deriving DecidableEq, Repr

/-- Whether an event is an access (read or write) to an external store. -/
def HookEvent.isStoreAccess : HookEvent → Bool
  | .storeRead _ => true
  | .storeWrite _ => true
  | _ => false

/-- Whether an event is the completion of a construction-time validation
step. -/
def HookEvent.isValidationStep : HookEvent → Bool
  | .optionsValidated => true
  | .defaultValidated => true
  | _ => false

/-- Whether an event is a store read. -/
def HookEvent.isRead : HookEvent → Bool
  | .storeRead _ => true
  | _ => false

/-- Whether an event is a store write. -/
def HookEvent.isWrite : HookEvent → Bool
  | .storeWrite _ => true
  | _ => false

/-- The store reads performed during hydration, in source order: each of
the three `useKeyStore` calls runs its lazy `useState(getStorageValue)`
initializer during the call, and `getStorageValue` touches its store
exactly when the key is configured and a `window` exists. -/
def hydrationReadEvents (o : StoredStateOptions) (env : Env) : List HookEvent :=
  (if o.queryKey.isSome && env.hasWindow then [HookEvent.storeRead .query] else []) ++
    (if o.sessionStorageKey.isSome && env.hasWindow then
      [HookEvent.storeRead .sessionStorage] else []) ++
    (if o.localStorageKey.isSome && env.hasWindow then
      [HookEvent.storeRead .localStorage] else [])

/-- The store writes performed by one `syncAllStores` fan-out, in source
order; `setStorageValue` touches its store exactly when the key is
configured and a `window` exists. -/
def syncWriteEvents (o : StoredStateOptions) (env : Env) : List HookEvent :=
  (if o.queryKey.isSome && env.hasWindow then [HookEvent.storeWrite .query] else []) ++
    (if o.sessionStorageKey.isSome && env.hasWindow then
      [HookEvent.storeWrite .sessionStorage] else []) ++
    (if o.localStorageKey.isSome && env.hasWindow then
      [HookEvent.storeWrite .localStorage] else [])

/-- The event trace of one initial activation of `useStoredState`, in
source order: `validateUseStoredStateOptions` first (a failure throws and
nothing further happens); then the three adapters' hydration reads (their
lazy `useState` initializers); then the `isValid(defaultValue)` check at
the end of the render body (a failure throws before any write); then, in
the commit phase, the post-hydration `useEffect` fan-out of writes. -/
def hookTrace (o : StoredStateOptions) (env : Env) : List HookEvent :=
  match validateUseStoredStateOptions o with
  | .error _ => []
  | .ok _ =>
    HookEvent.optionsValidated ::
      hydrationReadEvents o env ++
        if isValid o o.defaultValue then
          HookEvent.defaultValidated :: syncWriteEvents o env
        else []

/-- The ordering property claimed of construction-time validation: every
validation step completes before any store access occurs. -/
def validationBeforeStoreAccess (t : List HookEvent) : Prop :=
  ∀ i j : Fin t.length,
    (t.get i).isValidationStep = true → (t.get j).isStoreAccess = true → (i : Nat) < (j : Nat)

/-! ## Helper lemmas about the store and registry operations -/

theorem getParam_deleteParam_self (ps : KVStore) (k : String) :
    getParam (deleteParam ps k) k = none := by
  induction ps with
  | nil => rfl
  | cons p rest ih =>
    obtain ⟨k', v⟩ := p
    by_cases h : k' = k <;> simp [deleteParam, getParam, h] at ih ⊢ <;>
      simpa [deleteParam, getParam, h] using ih

theorem getParam_deleteParam_ne (ps : KVStore) (k k' : String) (h : k' ≠ k) :
    getParam (deleteParam ps k) k' = getParam ps k' := by
  induction ps with
  | nil => rfl
  | cons p rest ih =>
    obtain ⟨k₀, v⟩ := p
    by_cases h0 : k₀ = k
    · subst h0
      simp [deleteParam, getParam, Ne.symm h] at ih ⊢
      simpa [deleteParam] using ih
    · by_cases h1 : k₀ = k' <;>
        simp [deleteParam, getParam, h0, h1, h] at ih ⊢ <;>
        simpa [deleteParam] using ih

theorem getParam_setParam_self (ps : KVStore) (k v : String) :
    getParam (setParam ps k v) k = some v := by
  induction ps with
  | nil => simp [setParam, getParam]
  | cons p rest ih =>
    obtain ⟨k₀, v₀⟩ := p
    by_cases h : k₀ = k <;> simp [setParam, getParam, h, ih]

theorem getParam_setParam_ne (ps : KVStore) (k k' v : String) (h : k' ≠ k) :
    getParam (setParam ps k v) k' = getParam ps k' := by
  induction ps with
  | nil => simp [setParam, getParam, Ne.symm h]
  | cons p rest ih =>
    obtain ⟨k₀, v₀⟩ := p
    by_cases h0 : k₀ = k
    · subst h0
      simp [setParam, getParam, Ne.symm h, getParam_deleteParam_ne rest k₀ k' h]
    · by_cases h1 : k₀ = k' <;> simp [setParam, getParam, h0, h1, h, ih]

theorem setStorageValue_hasWindow (src : StoreSource) (key : Option String)
    (ser : JsVal → String) (v : JsVal) (env : Env) :
    (setStorageValue src key ser v env).hasWindow = env.hasWindow := by
  cases key with
  | none => rfl
  | some k =>
    by_cases hw : env.hasWindow = false <;> cases src <;> simp [setStorageValue, hw]

theorem setStorageValue_query_session (key : Option String) (ser : JsVal → String)
    (v : JsVal) (env : Env) :
    (setStorageValue .query key ser v env).session = env.session := by
  cases key with
  | none => rfl
  | some k => by_cases hw : env.hasWindow = false <;> simp [setStorageValue, hw]

theorem setStorageValue_query_locals (key : Option String) (ser : JsVal → String)
    (v : JsVal) (env : Env) :
    (setStorageValue .query key ser v env).locals = env.locals := by
  cases key with
  | none => rfl
  | some k => by_cases hw : env.hasWindow = false <;> simp [setStorageValue, hw]

theorem setStorageValue_session_query (key : Option String) (ser : JsVal → String)
    (v : JsVal) (env : Env) :
    (setStorageValue .sessionStorage key ser v env).query = env.query := by
  cases key with
  | none => rfl
  | some k => by_cases hw : env.hasWindow = false <;> simp [setStorageValue, hw]

theorem setStorageValue_session_locals (key : Option String) (ser : JsVal → String)
    (v : JsVal) (env : Env) :
    (setStorageValue .sessionStorage key ser v env).locals = env.locals := by
  cases key with
  | none => rfl
  | some k => by_cases hw : env.hasWindow = false <;> simp [setStorageValue, hw]

theorem setStorageValue_local_query (key : Option String) (ser : JsVal → String)
    (v : JsVal) (env : Env) :
    (setStorageValue .localStorage key ser v env).query = env.query := by
  cases key with
  | none => rfl
  | some k => by_cases hw : env.hasWindow = false <;> simp [setStorageValue, hw]

theorem setStorageValue_local_session (key : Option String) (ser : JsVal → String)
    (v : JsVal) (env : Env) :
    (setStorageValue .localStorage key ser v env).session = env.session := by
  cases key with
  | none => rfl
  | some k => by_cases hw : env.hasWindow = false <;> simp [setStorageValue, hw]

theorem getEntry_setEntry_self (reg : Registry) (k : String) (s : List Nat) :
    getEntry (setEntry reg k s) k = some s := by
  induction reg with
  | nil => simp [setEntry, getEntry]
  | cons p rest ih =>
    obtain ⟨k₀, s₀⟩ := p
    by_cases h : k₀ = k <;> simp [setEntry, getEntry, h, ih]

theorem setEntry_setEntry_self (reg : Registry) (k : String) (s : List Nat) :
    setEntry (setEntry reg k s) k s = setEntry reg k s := by
  induction reg with
  | nil => simp [setEntry]
  | cons p rest ih =>
    obtain ⟨k₀, s₀⟩ := p
    by_cases h : k₀ = k <;> simp [setEntry, h, ih]

theorem getEntry_removeEntry_self (reg : Registry) (k : String) :
    getEntry (removeEntry reg k) k = none := by
  induction reg with
  | nil => rfl
  | cons p rest ih =>
    obtain ⟨k₀, s₀⟩ := p
    by_cases h : k₀ = k <;> simp [removeEntry, getEntry, h] at ih ⊢ <;>
      simpa [removeEntry, getEntry, h] using ih

theorem removeId_removeId (s : List Nat) (i : Nat) :
    removeId (removeId s i) i = removeId s i := by
  unfold removeId
  exact List.filter_eq_self.mpr (fun a ha => (List.mem_filter.mp ha).2)

theorem hydrationReadEvents_isRead (o : StoredStateOptions) (env : Env) :
    ∀ e ∈ hydrationReadEvents o env, e.isRead = true := by
  intro e he
  have hsing : ∀ (c : Bool) (x : HookEvent), e ∈ (if c = true then [x] else []) → e = x := by
    intro c x h
    cases c <;> simp at h
    exact h
  unfold hydrationReadEvents at he
  rcases List.mem_append.mp he with he | he
  · rcases List.mem_append.mp he with he | he
    · rw [hsing _ _ he]; rfl
    · rw [hsing _ _ he]; rfl
  · rw [hsing _ _ he]; rfl

theorem syncWriteEvents_isWrite (o : StoredStateOptions) (env : Env) :
    ∀ e ∈ syncWriteEvents o env, e.isWrite = true := by
  intro e he
  have hsing : ∀ (c : Bool) (x : HookEvent), e ∈ (if c = true then [x] else []) → e = x := by
    intro c x h
    cases c <;> simp at h
    exact h
  unfold syncWriteEvents at he
  rcases List.mem_append.mp he with he | he
  · rcases List.mem_append.mp he with he | he
    · rw [hsing _ _ he]; rfl
    · rw [hsing _ _ he]; rfl
  · rw [hsing _ _ he]; rfl

instance decidableValidationBeforeStoreAccess (t : List HookEvent) :
    Decidable (validationBeforeStoreAccess t) := by
  unfold validationBeforeStoreAccess
  infer_instance

/-! ## Sample configurations used by the witnesses -/

/-- A sample configuration: query key `"q"`, session-storage key `"s"`,
allow-list validation accepting the strings `"a"` and `"b"`. -/
def sampleOpts : StoredStateOptions where
  queryKey := some "q"
  sessionStorageKey := some "s"
  localStorageKey := none
  defaultValue := .jsStr "a"
  validValues := some [.jsStr "a", .jsStr "b"]
  validate := none
  parse := none
  serialize := none

/-- A sample browser environment holding `q = a` in the URL and `s = b`
in session storage. -/
def sampleEnv : Env where
  query := [("q", "a")]
  session := [("s", "b")]
  locals := []
  hasWindow := true

/-- The registry after two activations (identifiers `1` and `2`) have
registered for the query key `"tab"`. -/
def tabRegistry : Registry :=
  registerInstance (registerInstance [] "tab" 1) "tab" 2

/-- A browser environment holding `tab = x` and one unrelated query
parameter. -/
def tabEnv : Env where
  query := [("tab", "x"), ("other", "v")]
  session := []
  locals := []
  hasWindow := true

/-! ## Claim theorems -/

/-- C1: the hydrated value of the composite state is the query adapter's
read when that read is non-null and passes the active validation
strategy, otherwise the session-storage read under the same condition,
otherwise the local-storage read under the same condition, otherwise
`defaultValue` (first conjunct, equality with the precedence rule as the
specification words it); and hydration never consults the validation gate
at a null adapter read — its result is unchanged under any change of the
gate's behaviour at `none` (second conjunct). -/
theorem hydration_precedence (o : StoredStateOptions) (env : Env)
    (f g : Option JsVal → Bool) (hfg : ∀ v, f (some v) = g (some v)) :
    initialState o env = hydrationSpec o env ∧
    initialStateGen o env f = initialStateGen o env g := by
  constructor
  · unfold initialState hydrationSpec validatedState
    cases hq : readState o env .query <;>
      cases hs : readState o env .sessionStorage <;>
        cases hl : readState o env .localStorage <;>
          (dsimp only; first
            | rfl
            | (split_ifs <;> first | rfl | simp [Option.orElse]))
  · unfold initialStateGen
    cases hq : readState o env .query <;>
      cases hs : readState o env .sessionStorage <;>
        cases hl : readState o env .localStorage <;>
          (dsimp only; try simp only [hfg])

/-- Witness for C1 at the sample configuration, with two gates that agree
on all non-null reads but differ at `none`. -/
theorem hydration_precedence_witness :
    initialState sampleOpts sampleEnv = hydrationSpec sampleOpts sampleEnv ∧
    initialStateGen sampleOpts sampleEnv (fun r => r.isSome) =
      initialStateGen sampleOpts sampleEnv (fun _ => true) :=
  hydration_precedence sampleOpts sampleEnv (fun r => r.isSome) (fun _ => true)
    (fun _ => rfl)

/-- C2: a setter candidate failing the active validation strategy is a
complete no-op (runtime value and every store unchanged); a passing
candidate becomes the runtime value and, in a browser context, every
configured store (query parameter, session storage, local storage) ends
up holding the serialized candidate. -/
theorem setState_validation_gating (o : StoredStateOptions) (c : JsVal)
    (s : CompositeState) :
    (isValid o c = false → setStateStep o c s = s) ∧
    (isValid o c = true →
      (setStateStep o c s).value = c ∧
      (s.env.hasWindow = true →
        (∀ qk, o.queryKey = some qk →
          getParam (setStateStep o c s).env.query qk = some (serializeValue o c)) ∧
        (∀ sk, o.sessionStorageKey = some sk →
          getParam (setStateStep o c s).env.session sk = some (serializeValue o c)) ∧
        (∀ lk, o.localStorageKey = some lk →
          getParam (setStateStep o c s).env.locals lk = some (serializeValue o c)))) := by
  constructor
  · intro hv
    simp [setStateStep, hv]
  · intro hv
    constructor
    · simp [setStateStep, hv]
    · intro hw
      refine ⟨?_, ?_, ?_⟩
      · intro qk hqk
        simp only [setStateStep, hv, if_pos, syncAllStores,
          setStorageValue_local_query, setStorageValue_session_query, hqk]
        simp [setStorageValue, hw, getParam_setParam_self]
      · intro sk hsk
        simp only [setStateStep, hv, if_pos, syncAllStores,
          setStorageValue_local_session, hsk]
        set env1 := setStorageValue .query o.queryKey (serializeValue o) c s.env with henv1
        have h1 : env1.hasWindow = true := by
          rw [henv1, setStorageValue_hasWindow]; exact hw
        have h2 : env1.session = s.env.session := by
          rw [henv1, setStorageValue_query_session]
        simp [setStorageValue, h1, h2, getParam_setParam_self]
      · intro lk hlk
        simp only [setStateStep, hv, if_pos, syncAllStores, hlk]
        set env2 := setStorageValue .sessionStorage o.sessionStorageKey (serializeValue o) c
          (setStorageValue .query o.queryKey (serializeValue o) c s.env) with henv2
        have h1 : env2.hasWindow = true := by
          rw [henv2, setStorageValue_hasWindow, setStorageValue_hasWindow]; exact hw
        have h2 : env2.locals = s.env.locals := by
          rw [henv2, setStorageValue_session_locals, setStorageValue_query_locals]
        simp [setStorageValue, h1, h2, getParam_setParam_self]

/-- Witness for C2: the invalid candidate `"z"` is a no-op, the valid
candidate `"b"` becomes the value and reaches both configured stores. -/
theorem setState_validation_gating_witness :
    setStateStep sampleOpts (JsVal.jsStr "z") ⟨JsVal.jsStr "a", sampleEnv⟩ =
      ⟨JsVal.jsStr "a", sampleEnv⟩ ∧
    (setStateStep sampleOpts (JsVal.jsStr "b") ⟨JsVal.jsStr "a", sampleEnv⟩).value =
      JsVal.jsStr "b" ∧
    getParam (setStateStep sampleOpts (JsVal.jsStr "b")
        ⟨JsVal.jsStr "a", sampleEnv⟩).env.query "q" =
      some (serializeValue sampleOpts (JsVal.jsStr "b")) ∧
    getParam (setStateStep sampleOpts (JsVal.jsStr "b")
        ⟨JsVal.jsStr "a", sampleEnv⟩).env.session "s" =
      some (serializeValue sampleOpts (JsVal.jsStr "b")) := by
  have h := (setState_validation_gating sampleOpts (JsVal.jsStr "b")
    ⟨JsVal.jsStr "a", sampleEnv⟩).2 (by decide)
  exact ⟨(setState_validation_gating sampleOpts (JsVal.jsStr "z")
      ⟨JsVal.jsStr "a", sampleEnv⟩).1 (by decide),
    h.1, (h.2 rfl).1 "q" rfl, (h.2 rfl).2.1 "s" rfl⟩

/-- C3: with two registered activations `i` and `j` sharing a query key,
cleaning up `i` leaves the environment (and hence the URL parameter and
its value) untouched and keeps a registry entry holding `j`; cleaning up
`j` afterwards deletes the registry entry and removes the key's query
parameter from the URL. -/
theorem query_param_removed_only_on_last (k : String) (i j : Nat) (s : List Nat)
    (reg : Registry) (env : Env) (hentry : getEntry reg k = some s) (hi : i ∈ s)
    (hrem : removeId s i = [j]) :
    (cleanupInstance reg k i env).2 = env ∧
    getEntry (cleanupInstance reg k i env).1 k = some [j] ∧
    getEntry (cleanupInstance (cleanupInstance reg k i env).1 k j
      (cleanupInstance reg k i env).2).1 k = none ∧
    getParam (cleanupInstance (cleanupInstance reg k i env).1 k j
      (cleanupInstance reg k i env).2).2.query k = none := by
  have h1 : cleanupInstance reg k i env = (setEntry reg k [j], env) := by
    simp [cleanupInstance, hentry, hrem]
  have hj : removeId [j] j = [] := by simp [removeId]
  have h2 : cleanupInstance (setEntry reg k [j]) k j env =
      (removeEntry (setEntry reg k [j]) k,
        { env with query := deleteParam env.query k }) := by
    simp [cleanupInstance, getEntry_setEntry_self, hj]
  rw [h1]
  refine ⟨rfl, getEntry_setEntry_self reg k [j], ?_, ?_⟩
  · rw [h2]
    exact getEntry_removeEntry_self (setEntry reg k [j]) k
  · rw [h2]
    exact getParam_deleteParam_self env.query k

/-- Witness for C3: activations `1` and `2` registered for `"tab"`;
unmounting `1` keeps `tab = x`, unmounting `2` removes it. -/
theorem query_param_removed_only_on_last_witness :
    (cleanupInstance tabRegistry "tab" 1 tabEnv).2 = tabEnv ∧
    getEntry (cleanupInstance tabRegistry "tab" 1 tabEnv).1 "tab" = some [2] ∧
    getEntry (cleanupInstance (cleanupInstance tabRegistry "tab" 1 tabEnv).1 "tab" 2
      (cleanupInstance tabRegistry "tab" 1 tabEnv).2).1 "tab" = none ∧
    getParam (cleanupInstance (cleanupInstance tabRegistry "tab" 1 tabEnv).1 "tab" 2
      (cleanupInstance tabRegistry "tab" 1 tabEnv).2).2.query "tab" = none :=
  query_param_removed_only_on_last "tab" 1 2 [2, 1] tabRegistry tabEnv
    (by decide) (by decide) (by decide)

/-- C4 counterexample: at a configuration with a query key, a valid
default value and a browser context, the activation trace reads the query
store before the `defaultValue` validation completes, so it is not the
case that all construction-time validation precedes every store
access. -/
theorem validation_before_access_counterexample :
    ¬ validationBeforeStoreAccess (hookTrace
      ⟨some "q", none, none, .jsStr "d", none, none, none, none⟩
      ⟨[("q", "x")], [], [], true⟩) := by
  decide

/-- C4 amended: the option-shape validation completes before any store
access (it is the first event of every non-empty trace), and the
`defaultValue` validation completes before every store write — but the
adapters' hydration reads happen before the `defaultValue` check, which
sits between the reads and the writes. -/
theorem validation_order_amended (o : StoredStateOptions) (env : Env) :
    hookTrace o env = [] ∨
    ∃ r w, hookTrace o env = HookEvent.optionsValidated :: (r ++ w) ∧
      (∀ e ∈ r, e.isRead = true) ∧
      (w = [] ∨ ∃ w', w = HookEvent.defaultValidated :: w' ∧
        ∀ e ∈ w', e.isWrite = true) := by
  unfold hookTrace
  cases hv : validateUseStoredStateOptions o with
  | error e => exact Or.inl rfl
  | ok u =>
    right
    refine ⟨hydrationReadEvents o env, _, rfl, hydrationReadEvents_isRead o env, ?_⟩
    by_cases hd : isValid o o.defaultValue = true
    · right
      exact ⟨syncWriteEvents o env, by simp [hd], syncWriteEvents_isWrite o env⟩
    · left
      simp [hd]

/-- C5 counterexample: a parse function that throws is not caught by
`getStorageValue` — the exception propagates to the adapter's caller
instead of being treated as "no usable stored value". -/
theorem parse_throw_propagates :
    getStorageValueE .query (some "k") (fun _ => .error ())
      ⟨[("k", "raw")], [], [], true⟩ = .error () ∧
    ∀ r, getStorageValueE .query (some "k") (fun _ => .error ())
      ⟨[("k", "raw")], [], [], true⟩ ≠ .ok r := by
  constructor
  · rfl
  · intro r h
    simp [getStorageValueE, getParam, Env.store] at h

/-- C5 amended: a parse function that returns null (without throwing)
raises no exception — the read returns normally with the parse result —
and an always-null parse yields a null read, which hydration treats as
"no usable stored value" (the fall-through itself is the first conjunct
of the C1 theorem). -/
theorem parse_null_is_no_value (source : StoreSource) (key : Option String)
    (p : String → Option JsVal) (env : Env) :
    getStorageValueE source key (fun raw => .ok (p raw)) env =
      .ok (getStorageValue source key p env) ∧
    ((∀ raw, p raw = none) → getStorageValue source key p env = none) := by
  constructor
  · cases key with
    | none => rfl
    | some k =>
      by_cases hw : env.hasWindow = false
      · simp [getStorageValueE, getStorageValue, hw]
      · cases hg : getParam (env.store source) k <;>
          simp [getStorageValueE, getStorageValue, hw, hg]
  · intro hp
    cases key with
    | none => rfl
    | some k =>
      by_cases hw : env.hasWindow = false
      · simp [getStorageValue, hw]
      · cases hg : getParam (env.store source) k <;>
          simp [getStorageValue, hw, hg, hp]

/-- Witness for the amended C5 at a query read whose parse always returns
null. -/
theorem parse_null_is_no_value_witness :
    getStorageValueE .query (some "q")
        (fun raw => .ok ((fun (_ : String) => (none : Option JsVal)) raw)) sampleEnv =
      .ok (getStorageValue .query (some "q") (fun _ => none) sampleEnv) ∧
    getStorageValue .query (some "q") (fun _ => none) sampleEnv = none :=
  ⟨(parse_null_is_no_value .query (some "q") (fun _ => none) sampleEnv).1,
    (parse_null_is_no_value .query (some "q") (fun _ => none) sampleEnv).2
      (fun _ => rfl)⟩

/-- C6: with no caller-supplied codec, the primitive parser behaves
exactly as the specification's default-codec table: booleans accept only
the raw strings `"true"` and `"false"`, numbers go through `Number(raw)`
with a `NaN` result unparseable, strings parse by identity, and every
other default shape is always unparseable. -/
theorem parsePrimitiveState_eq_defaultCodecSpec (raw : String) (d : JsVal) :
    parsePrimitiveState raw d = defaultCodecSpec raw d := by
  cases d <;> simp [parsePrimitiveState, defaultCodecSpec]

/-- C7 counterexample: the round-trip fails at the number `NaN` — the
default serializer prints it as `"NaN"`, which the default parser maps to
`NaN` and then rejects through the `Number.isNaN` guard, yielding null
rather than the original value. -/
theorem default_codec_roundtrip_nan_counterexample :
    parsePrimitiveState (jsValToString (JsVal.jsNum JsNumber.nan))
        (JsVal.jsNum JsNumber.nan) = none ∧
    parsePrimitiveState (jsValToString (JsVal.jsNum JsNumber.nan))
        (JsVal.jsNum JsNumber.nan) ≠ some (JsVal.jsNum JsNumber.nan) := by
  decide

/-- C7 amended: `parse (serialize x) = x` for the built-in codec holds
for every boolean and every string, and for every number that is not
`NaN` and whose serialized form re-parses to itself (in JavaScript that
is every number except `NaN`); the round-trip fails at `NaN`. -/
theorem default_codec_roundtrip (db b : Bool) (ds s : String) (dn n : JsNumber)
    (hn : n.isNaN = false) (hrt : jsToNumber (jsNumberToString n) = n) :
    parsePrimitiveState (jsValToString (.jsBool b)) (.jsBool db) = some (.jsBool b) ∧
    parsePrimitiveState (jsValToString (.jsStr s)) (.jsStr ds) = some (.jsStr s) ∧
    parsePrimitiveState (jsValToString (.jsNum n)) (.jsNum dn) = some (.jsNum n) := by
  refine ⟨?_, rfl, ?_⟩
  · cases b <;> rfl
  · simp [parsePrimitiveState, jsValToString, hrt, hn]

/-- Witness for the amended C7 at `false`, `"y"`, and the number `5`. -/
theorem default_codec_roundtrip_witness :
    parsePrimitiveState (jsValToString (.jsBool false)) (.jsBool true) =
      some (.jsBool false) ∧
    parsePrimitiveState (jsValToString (.jsStr "y")) (.jsStr "x") =
      some (.jsStr "y") ∧
    parsePrimitiveState (jsValToString (.jsNum (.fin 5))) (.jsNum (.fin 0)) =
      some (.jsNum (.fin 5)) :=
  default_codec_roundtrip true false "x" "y" (.fin 0) (.fin 5)
    (by decide) (by decide)

/-- C8: with a null key or no window context, the adapter read returns
null — even under a throwing parse function, no exception is raised and
the parse function is never consulted — and the adapter write returns the
environment unchanged. -/
theorem adapter_guard_no_context (source : StoreSource) (key : Option String)
    (parseE : String → Except Unit (Option JsVal)) (p : String → Option JsVal)
    (ser : JsVal → String) (v : JsVal) (env : Env)
    (h : key = none ∨ env.hasWindow = false) :
    getStorageValueE source key parseE env = .ok none ∧
    getStorageValue source key p env = none ∧
    setStorageValue source key ser v env = env := by
  rcases h with h | h
  · subst h
    exact ⟨rfl, rfl, rfl⟩
  · cases key with
    | none => exact ⟨rfl, rfl, rfl⟩
    | some k =>
      refine ⟨?_, ?_, ?_⟩ <;>
        simp [getStorageValueE, getStorageValue, setStorageValue, h]

/-- Witness for C8 at a null key with a throwing parse function. -/
theorem adapter_guard_no_context_witness :
    getStorageValueE .localStorage none (fun _ => .error ()) sampleEnv = .ok none ∧
    getStorageValue .localStorage none (fun _ => none) sampleEnv = none ∧
    setStorageValue .localStorage none jsValToString (.jsStr "v") sampleEnv =
      sampleEnv :=
  adapter_guard_no_context .localStorage none (fun _ => .error ()) (fun _ => none)
    jsValToString (.jsStr "v") sampleEnv (Or.inl rfl)

/-- C9: cleanup on a key whose registry entry is already gone is a
complete no-op, and running the cleanup path twice for the same
activation equals running it once — the instance set never re-loses an
identifier it no longer contains and the consumer count is never
decremented below its floor. -/
theorem cleanup_idempotent (reg : Registry) (k : String) (i : Nat) (env : Env) :
    (getEntry reg k = none → cleanupInstance reg k i env = (reg, env)) ∧
    cleanupInstance (cleanupInstance reg k i env).1 k i
      (cleanupInstance reg k i env).2 = cleanupInstance reg k i env := by
  constructor
  · intro h
    simp [cleanupInstance, h]
  · cases h : getEntry reg k with
    | none => simp [cleanupInstance, h]
    | some s =>
      by_cases hl : 0 < (removeId s i).length
      · have hres : cleanupInstance reg k i env =
            (setEntry reg k (removeId s i), env) := by
          simp [cleanupInstance, h, hl]
        rw [hres]
        simp [cleanupInstance, getEntry_setEntry_self, removeId_removeId, hl,
          setEntry_setEntry_self]
      · have hres : cleanupInstance reg k i env =
            (removeEntry reg k, { env with query := deleteParam env.query k }) := by
          simp [cleanupInstance, h, hl]
        rw [hres]
        simp [cleanupInstance, getEntry_removeEntry_self]

/-- Witness for C9: cleanup on an empty registry is a no-op, and cleaning
up activation `1` of the `"tab"` registry twice equals doing it once. -/
theorem cleanup_idempotent_witness :
    cleanupInstance ([] : Registry) "tab" 1 tabEnv = ([], tabEnv) ∧
    cleanupInstance (cleanupInstance tabRegistry "tab" 1 tabEnv).1 "tab" 1
      (cleanupInstance tabRegistry "tab" 1 tabEnv).2 =
      cleanupInstance tabRegistry "tab" 1 tabEnv :=
  ⟨(cleanup_idempotent [] "tab" 1 tabEnv).1 rfl,
    (cleanup_idempotent tabRegistry "tab" 1 tabEnv).2⟩

/-- C10: a query-source write changes only the written key — every other
query parameter keeps its value, and session and local storage are
untouched — and the unmount-time deletion performed by the registry
cleanup likewise preserves every other query parameter and both
storages. -/
theorem query_write_frame (k k' : String) (keyq : Option String)
    (ser : JsVal → String) (v : JsVal) (env : Env) (reg : Registry) (i : Nat)
    (h : k' ≠ k) :
    getParam (setStorageValue .query (some k) ser v env).query k' =
      getParam env.query k' ∧
    (setStorageValue .query keyq ser v env).session = env.session ∧
    (setStorageValue .query keyq ser v env).locals = env.locals ∧
    getParam (cleanupInstance reg k i env).2.query k' = getParam env.query k' ∧
    (cleanupInstance reg k i env).2.session = env.session ∧
    (cleanupInstance reg k i env).2.locals = env.locals := by
  refine ⟨?_, setStorageValue_query_session keyq ser v env,
    setStorageValue_query_locals keyq ser v env, ?_, ?_, ?_⟩
  · by_cases hw : env.hasWindow = false <;>
      simp [setStorageValue, hw, getParam_setParam_ne env.query k k' (ser v) h]
  · cases he : getEntry reg k with
    | none => simp [cleanupInstance, he]
    | some s =>
      by_cases hl : 0 < (removeId s i).length <;>
        simp [cleanupInstance, he, hl, getParam_deleteParam_ne env.query k k' h]
  · cases he : getEntry reg k with
    | none => simp [cleanupInstance, he]
    | some s =>
      by_cases hl : 0 < (removeId s i).length <;> simp [cleanupInstance, he, hl]
  · cases he : getEntry reg k with
    | none => simp [cleanupInstance, he]
    | some s =>
      by_cases hl : 0 < (removeId s i).length <;> simp [cleanupInstance, he, hl]

/-- Witness for C10: writing and unmount-deleting `"tab"` leaves the
unrelated parameter `"other"` and both storages unchanged. -/
theorem query_write_frame_witness :
    getParam (setStorageValue .query (some "tab") jsValToString
        (.jsStr "x") tabEnv).query "other" = getParam tabEnv.query "other" ∧
    (setStorageValue .query (some "tab") jsValToString (.jsStr "x") tabEnv).session =
      tabEnv.session ∧
    (setStorageValue .query (some "tab") jsValToString (.jsStr "x") tabEnv).locals =
      tabEnv.locals ∧
    getParam (cleanupInstance tabRegistry "tab" 1 tabEnv).2.query "other" =
      getParam tabEnv.query "other" ∧
    (cleanupInstance tabRegistry "tab" 1 tabEnv).2.session = tabEnv.session ∧
    (cleanupInstance tabRegistry "tab" 1 tabEnv).2.locals = tabEnv.locals :=
  query_write_frame "tab" "other" (some "tab") jsValToString (.jsStr "x") tabEnv
    tabRegistry 1 (by decide)
